import Mathlib

/-!
Verification development for the Discord quiz bot (src/bot.py).

The embedding models the in-memory quiz/voting state machine: Python dicts
become association lists preserving insertion order (Python 3.7+ dict
semantics), Python sets of strings become Finset String, and each command
handler or button callback becomes a pure function from its inputs and the
relevant shared state to the new state plus the messages it sends.  The
awaited platform calls (message sends/edits) carry no state of their own
beyond the message contents recorded in the results.
-/

namespace QuizBot

/-! Association-list model of Python dicts.  Keys are unique in every dict
the program builds; dset updates the first occurrence in place (keeping its
position, as Python does) and otherwise appends at the end, dpop removes
the key, dget finds the value. -/

def dget {κ α : Type} [DecidableEq κ] (d : List (κ × α)) (k : κ) : Option α :=
  match d with
  | [] => none
  | (k', v) :: rest => if k' = k then some v else dget rest k

def dgetD {κ α : Type} [DecidableEq κ] (d : List (κ × α)) (k : κ) (v₀ : α) : α :=
  (dget d k).getD v₀

def dset {κ α : Type} [DecidableEq κ] (d : List (κ × α)) (k : κ) (v : α) :
    List (κ × α) :=
  match d with
  | [] => [(k, v)]
  | (k', v') :: rest => if k' = k then (k', v) :: rest else (k', v') :: dset rest k v

def dpop {κ α : Type} [DecidableEq κ] (d : List (κ × α)) (k : κ) : List (κ × α) :=
  match d with
  | [] => []
  | (k', v') :: rest => if k' = k then rest else (k', v') :: dpop rest k

def dkeys {κ α : Type} (d : List (κ × α)) : List κ := d.map Prod.fst

def sumValues {κ : Type} (d : List (κ × Int)) : Int := (d.map Prod.snd).sum

/-! Quiz content, mirroring the TypedDicts QuizQuestion and QuizData and the
top-level quiz_data dict mapping quiz name to QuizData. -/

structure QuizQuestion where
  question : String
  options : List String
deriving DecidableEq

structure QuizData where
  questions : List QuizQuestion
deriving DecidableEq

/-! The Quiz class: one active session's mutable state. -/

structure Quiz where
  quiz_name : String
  quiz_starter_id : Nat
  current_question_index : Int
  /-- user_votes: dict from user id to the set of option labels selected. -/
  user_votes : List (Nat × Finset String)
  /-- answer_votes: dict from option label to its vote count. -/
  answer_votes : List (String × Int)
  allow_multiple_answers : Bool
  /-- current_view: the live control set, as its button labels plus one
  disabled flag (the disable loop in next_question disables every child). -/
  current_view : Option (List String × Bool)
  current_question_votes : Int
  /-- votes_message: the displayed count N of the live "Votes: N" message,
  when that message exists. -/
  votes_message : Option Int
  last_message_id : Option Nat
deriving DecidableEq

/-- Quiz.__init__ with its defaults. -/
def mkQuiz (quiz_name : String) (quiz_starter_id : Nat)
    (allow_multiple_answers : Bool) : Quiz :=
  { quiz_name := quiz_name
    quiz_starter_id := quiz_starter_id
    current_question_index := -1
    user_votes := []
    answer_votes := []
    allow_multiple_answers := allow_multiple_answers
    current_view := none
    current_question_votes := 0
    votes_message := none
    last_message_id := none }

structure CallbackResult where
  quiz : Quiz
  /-- The ephemeral followup sent to the voter. -/
  followup : String
deriving DecidableEq

/-- QuizButton.callback: the state mutation performed when a button with the
given label is clicked by the given user, followed by the votes-message edit
and the ephemeral acknowledgment.  Note that the callback receives the Quiz
object through the view and never consults the quizzes registry. -/
def callback (label : String) (user_id : Nat) (qz : Quiz) : CallbackResult :=
  let qz :=
    if qz.allow_multiple_answers then
      let uv :=
        if (dget qz.user_votes user_id).isNone then dset qz.user_votes user_id ∅
        else qz.user_votes
      let sel := dgetD uv user_id ∅
      if label ∈ sel then
        { qz with
          user_votes := dset uv user_id (sel.erase label)
          answer_votes := dset qz.answer_votes label (dgetD qz.answer_votes label 0 - 1) }
      else
        { qz with
          user_votes := dset uv user_id (insert label sel)
          answer_votes := dset qz.answer_votes label (dgetD qz.answer_votes label 0 + 1) }
    else
      let uv :=
        if (dget qz.user_votes user_id).isSome then dpop qz.user_votes user_id
        else qz.user_votes
      { qz with
        user_votes := dset uv user_id {label}
        answer_votes := dset qz.answer_votes label (dgetD qz.answer_votes label 0 + 1) }
  let qz := { qz with current_question_votes := sumValues qz.answer_votes }
  let qz :=
    if qz.votes_message.isSome then { qz with votes_message := some qz.current_question_votes }
    else qz
  { quiz := qz, followup := "You voted for " ++ label }

/-! Results-table formatting, from next_question. -/

def MAX_OPTION_LENGTH : Nat := 15
def MIN_OPTION_LENGTH : Nat := 6

/-- The longest-option loop of next_question: starts from MIN_OPTION_LENGTH,
takes the max with each option length in turn, and breaks at
MAX_OPTION_LENGTH as soon as the running value reaches it. -/
def longest_option_loop : List String → Nat → Nat
  | [], longest => longest
  | option :: rest, longest =>
    let longest := max option.length longest
    if longest ≥ MAX_OPTION_LENGTH then MAX_OPTION_LENGTH
    else longest_option_loop rest longest

/-- Python str.ljust: pad with spaces on the right up to the given width. -/
def ljust (s : String) (width : Nat) : String :=
  s ++ String.mk (List.replicate (width - s.length) ' ')

/-- The percentage computed for one row: count divided by total times 100,
or 0 when the total is not positive, as an exact rational. -/
def percentage_of (vote_count : Int) (total_votes : Int) : ℚ :=
  if total_votes > 0 then (vote_count : ℚ) / (total_votes : ℚ) * 100 else 0

def format2aux (h : Nat) : String :=
  toString (h / 100) ++ "." ++ (if h % 100 < 10 then "0" else "") ++ toString (h % 100)

/-- The percentage in hundredths, rounded to the nearest (halves upward),
written with integer division so that it evaluates by plain reduction; the
pct_hundredths_spec theorem identifies it with rounding the exact rational
percentage.  Python formats the IEEE-754 double with .2f (half-even on the
decimal digits of the double); the exact-rational rounding agrees away from
ties, and every value arising in the verified claims is away from a tie. -/
def pct_hundredths (vote_count : Int) (total_votes : Int) : Int :=
  if total_votes > 0 then (20000 * vote_count + total_votes) / (2 * total_votes)
  else 0

/-- Rendering the hundredths as a fixed two-decimal string, as the Python
format specifier .2f lays it out. -/
def format2h (h : Int) : String :=
  if h < 0 then "-" ++ format2aux (-h).toNat else format2aux h.toNat

/-- One row of the results table, exactly as the loop in next_question
builds it: truncate long labels for display only, pad the label and the
count, then the formatted percentage. -/
def result_row (option_spaces : Nat) (total_votes : Int) (p : String × Int) : String :=
  let option := p.1
  let vote_count := p.2
  let option :=
    if option.length > MAX_OPTION_LENGTH then option.take (MAX_OPTION_LENGTH - 3) ++ "..."
    else option
  ljust option option_spaces ++ " | " ++ ljust (toString vote_count) 5 ++ " | "
    ++ format2h (pct_hundredths vote_count total_votes) ++ "%\n"

/-- The results table emitted by next_question, built from the answer_votes
dict in its iteration order. -/
def result_table (answer_votes : List (String × Int)) : String :=
  let total_votes := sumValues answer_votes
  let longest_option_length := longest_option_loop (dkeys answer_votes) MIN_OPTION_LENGTH
  let option_spaces := max MIN_OPTION_LENGTH longest_option_length
  let header := "Results\nOption "
    ++ String.mk (List.replicate (longest_option_length - MIN_OPTION_LENGTH) ' ')
    ++ "| Count | %\n"
  let sep := String.mk (List.replicate (16 + option_spaces) '-') ++ "\n"
  (answer_votes.map (result_row option_spaces total_votes)).foldl
    (fun acc row => acc ++ row) (header ++ sep)

/-! The question-flow functions.  Message sends and edits are represented by
the message payloads in the return values; a fresh Discord message id for
the newly sent prompt is an input. -/

/-- Quiz.get_current_question.  The index is nonnegative at every call site
(send_question increments it from its initial -1 before calling), so
Python's negative-index wrap-around is never exercised; a missing quiz name
is totalised to an empty question list (sessions only ever name catalog
entries, which uploads can overwrite but never delete). -/
def get_current_question (quiz_data : List (String × QuizData)) (qz : Quiz) :
    Option QuizQuestion :=
  let questions := (dgetD quiz_data qz.quiz_name ⟨[]⟩).questions
  if qz.current_question_index < (questions.length : Int) then
    questions.get? qz.current_question_index.toNat
  else none

/-- Replacement of every occurrence of a one-character pattern by a
one-character replacement, which is what each of the three replace calls on
the question text performs; for such patterns Python str.replace is exactly
this character map. -/
def replace1 (pat : Char) (rep : Char) (s : String) : String :=
  String.mk (s.data.map (fun ch => if ch = pat then rep else ch))

/-- The character replacements applied to the question text: newline to
itself (a no-op as written in the source), carriage return and tab to a
space. -/
def sanitize_question (s : String) : String :=
  replace1 '\t' ' ' (replace1 '\r' ' ' (replace1 '\n' '\n' s))

inductive SendMsg where
  | quizEnded
  | endOfQuestions
  | needTwoOptions
  | asked (content : String)
deriving DecidableEq

/-- send_question: increments the question index, ends (and signals deletion
of) the session past the last question, and otherwise resets the per-question
ledger, installs a fresh view, sends the prompt and a fresh votes message.
The caller owns the quizzes registry; the quizEnded outcome tells it to
delete the session (the del statement lives in send_question in the source,
acting on the shared registry). -/
def send_question (quiz_data : List (String × QuizData)) (message_id : Nat)
    (qz : Quiz) : Quiz × SendMsg :=
  let qz := { qz with current_question_index := qz.current_question_index + 1 }
  let questions := (dgetD quiz_data qz.quiz_name ⟨[]⟩).questions
  if qz.current_question_index ≥ (questions.length : Int) then
    (qz, SendMsg.quizEnded)
  else
    match get_current_question quiz_data qz with
    | none => (qz, SendMsg.endOfQuestions)
    | some question_data =>
      let question := sanitize_question question_data.question
      let options := question_data.options
      if options.length < 2 then (qz, SendMsg.needTwoOptions)
      else
        let qz := { qz with
          answer_votes := options.map (fun option => (option, 0))
          current_question_votes := 0
          current_view := some (options, false)
          last_message_id := some message_id
          votes_message := some 0 }
        (qz, SendMsg.asked ("**Question " ++ toString (qz.current_question_index + 1)
          ++ ": " ++ question ++ "**"))

/-! The command handlers.  The invoking user is passed with the permission
information the platform supplies; owner_id is the bot owner (None until
discord.py resolves it). -/

structure Author where
  id : Nat
  /-- Whether the author is a guild Member (permission checks resolve to
  False for a bare User). -/
  is_member : Bool
  /-- The guild_permissions attributes, read by name via getattr. -/
  perms : String → Bool

/-- The has_permission helper. -/
def has_permission (author : Author) (permission : String) : Bool :=
  if author.is_member then author.perms permission else false

inductive StartReply where
  | quizNotFound
  | alreadyRunning
  | started (msg : SendMsg)
deriving DecidableEq

/-- The start_quiz slash command.  It performs no permission check: the
author is consulted only for the id recorded as quiz starter. -/
def start_quiz (quiz_data : List (String × QuizData)) (quizzes : List (Nat × Quiz))
    (channel_id : Nat) (author : Author) (quiz_name : String)
    (multiple_answers : Bool) (message_id : Nat) :
    List (Nat × Quiz) × StartReply :=
  if (dget quiz_data quiz_name).isNone then (quizzes, StartReply.quizNotFound)
  else if (dget quizzes channel_id).isSome then (quizzes, StartReply.alreadyRunning)
  else
    let qz := mkQuiz quiz_name author.id multiple_answers
    let quizzes := dset quizzes channel_id qz
    let res := send_question quiz_data message_id qz
    let quizzes :=
      if res.2 = SendMsg.quizEnded then dpop quizzes channel_id
      else dset quizzes channel_id res.1
    (quizzes, StartReply.started res.2)

/-- The outcome of the best-effort attempt to edit the previous prompt to
disable its buttons: an external input, since it depends on the platform. -/
inductive DisableOutcome where
  | ok
  | notFound
  | forbidden
  | otherError
deriving DecidableEq

inductive NextReply where
  | noQuiz
  | notStarter
  | serverError
  | advanced (disableWarn : Option String) (results : Option String) (msg : SendMsg)
deriving DecidableEq

/-- The next_question slash command: registry lookup, starter check,
best-effort button disabling (a NotFound or Forbidden failure only emits a
warning and continues; an unexpected error aborts), results tabulation when
a question was open, then send_question, deleting the session from the
registry when it signals the end of the quiz. -/
def next_question (quiz_data : List (String × QuizData)) (quizzes : List (Nat × Quiz))
    (channel_id : Nat) (author : Author) (disable : DisableOutcome)
    (message_id : Nat) : List (Nat × Quiz) × NextReply :=
  match dget quizzes channel_id with
  | none => (quizzes, NextReply.noQuiz)
  | some qz =>
    if author.id ≠ qz.quiz_starter_id then (quizzes, NextReply.notStarter)
    else if qz.last_message_id.isSome ∧ disable = DisableOutcome.otherError then
      (quizzes, NextReply.serverError)
    else
      let disableWarn : Option String :=
        if qz.last_message_id.isSome then
          match disable with
          | DisableOutcome.notFound =>
            some "Could not find the previous message to disable buttons."
          | DisableOutcome.forbidden =>
            some "I don't have permission to edit the previous message."
          | _ => none
        else none
      let qz :=
        if qz.last_message_id.isSome ∧ disable = DisableOutcome.ok then
          { qz with current_view := qz.current_view.map (fun v => (v.1, true)) }
        else qz
      let results : Option String :=
        if qz.current_question_index ≥ 0 then some (result_table qz.answer_votes)
        else none
      let res := send_question quiz_data message_id qz
      let quizzes :=
        if res.2 = SendMsg.quizEnded then dpop quizzes channel_id
        else dset quizzes channel_id res.1
      (quizzes, NextReply.advanced disableWarn results res.2)

/-- Python str.endswith on the character sequences. -/
def endswith (s : String) (suffix : String) : Bool :=
  suffix.data.isSuffixOf s.data

/-- An uploaded attachment: its filename and the outcome of json.loads on
its bytes, none on a JSONDecodeError and otherwise the top-level entries of
the JSON object in document order. -/
structure Attachment where
  filename : String
  parsed : Option (List (String × QuizData))

inductive UploadReply where
  | noAttachment
  | notJsonFile
  | invalidJson
  | success
deriving DecidableEq

structure UploadResult where
  quiz_data : List (String × QuizData)
  /-- Whether save_quiz_data ran (the catalog was rewritten to disk). -/
  saved : Bool
  reply : UploadReply
deriving DecidableEq

/-- The upload_quiz prefix command.  It performs no permission check (the
author is ignored entirely); a parse failure aborts before any entry is
applied, and a successful parse applies every top-level entry in order and
then persists the whole catalog. -/
def upload_quiz (quiz_data : List (String × QuizData)) (author : Author)
    (attachments : List Attachment) : UploadResult :=
  match attachments with
  | [] => { quiz_data := quiz_data, saved := false, reply := UploadReply.noAttachment }
  | attachment :: _ =>
    if ¬ endswith attachment.filename ".json" then
      { quiz_data := quiz_data, saved := false, reply := UploadReply.notJsonFile }
    else
      match attachment.parsed with
      | none => { quiz_data := quiz_data, saved := false, reply := UploadReply.invalidJson }
      | some new_quiz_data =>
        { quiz_data := new_quiz_data.foldl (fun acc p => dset acc p.1 p.2) quiz_data
          saved := true
          reply := UploadReply.success }

inductive ForceQuitReply where
  | noPermission
  | ended
  | noActiveQuiz
deriving DecidableEq

/-- The force_quit slash command: requires manage_messages or being the bot
owner, then removes the channel's session if one exists. -/
def force_quit (quizzes : List (Nat × Quiz)) (channel_id : Nat) (author : Author)
    (owner_id : Option Nat) : List (Nat × Quiz) × ForceQuitReply :=
  if ¬ has_permission author "manage_messages" ∧ some author.id ≠ owner_id then
    (quizzes, ForceQuitReply.noPermission)
  else if (dget quizzes channel_id).isSome then
    (dpop quizzes channel_id, ForceQuitReply.ended)
  else (quizzes, ForceQuitReply.noActiveQuiz)

/-! Basic lemmas about the dict model. -/

theorem dget_dset_self {κ α : Type} [DecidableEq κ] (d : List (κ × α)) (k : κ) (v : α) :
    dget (dset d k v) k = some v := by
  induction d with
  | nil => simp [dget, dset]
  | cons p rest ih =>
    by_cases h : p.1 = k
    · simp [dget, dset, h]
    · simp [dget, dset, h, ih]

theorem dget_dset_ne {κ α : Type} [DecidableEq κ] (d : List (κ × α)) (k k' : κ) (v : α)
    (h : k' ≠ k) : dget (dset d k v) k' = dget d k' := by
  have hne : ¬ k = k' := fun he => h he.symm
  induction d with
  | nil => simp [dget, dset, hne]
  | cons p rest ih =>
    by_cases hp : p.1 = k
    · subst hp
      simp [dget, dset, hne]
    · simp [dget, dset, hp, ih]

theorem dset_dset {κ α : Type} [DecidableEq κ] (d : List (κ × α)) (k : κ) (v w : α) :
    dset (dset d k v) k w = dset d k w := by
  induction d with
  | nil => simp [dset]
  | cons p rest ih =>
    by_cases h : p.1 = k
    · simp [dset, h]
    · simp [dset, h, ih]

theorem dset_eq_of_dget {κ α : Type} [DecidableEq κ] (d : List (κ × α)) (k : κ) (v : α)
    (h : dget d k = some v) : dset d k v = d := by
  induction d with
  | nil => simp [dget] at h
  | cons p rest ih =>
    by_cases hp : p.1 = k
    · simp only [dget, if_pos hp] at h
      simp only [dset, if_pos hp, Option.some.injEq] at *
      cases p
      simp_all
    · simp only [dget, if_neg hp] at h
      simp [dset, hp, ih h]

theorem dkeys_dset_of_mem {κ α : Type} [DecidableEq κ] (d : List (κ × α)) (k : κ) (v : α)
    (h : (dget d k).isSome) : dkeys (dset d k v) = dkeys d := by
  induction d with
  | nil => simp [dget] at h
  | cons p rest ih =>
    by_cases hp : p.1 = k
    · simp [dset, hp, dkeys]
    · simp only [dget, if_neg hp] at h
      have hrest := ih h
      simp only [dkeys] at hrest
      simp [dset, hp, dkeys, hrest]

theorem mem_dkeys_iff_isSome {κ α : Type} [DecidableEq κ] (d : List (κ × α)) (k : κ) :
    k ∈ dkeys d ↔ (dget d k).isSome := by
  induction d with
  | nil => simp [dkeys, dget]
  | cons p rest ih =>
    simp only [dkeys, List.map_cons, List.mem_cons, dget]
    by_cases h : p.1 = k
    · simp [h]
    · simp only [if_neg h]
      constructor
      · rintro (rfl | hm)
        · exact absurd rfl h
        · exact ih.mp hm
      · intro hs
        exact Or.inr (ih.mpr hs)

theorem dset_ne_self {κ : Type} [DecidableEq κ] {d : List (κ × Int)} {k : κ} {w : Int}
    (h : dget d k ≠ some w) : dset d k w ≠ d := by
  intro he
  exact h (he ▸ dget_dset_self d k w)

theorem dset_shift_ne {κ : Type} [DecidableEq κ] (d : List (κ × Int)) (k : κ) (c : Int)
    (hc : c ≠ 0) : dset d k (dgetD d k 0 + c) ≠ d := by
  apply dset_ne_self
  cases hv : dget d k with
  | none => simp
  | some v => simp [dgetD, hv]; omega

/-! Structural lemmas about the button callback. -/

theorem callback_allow_multiple (label : String) (user_id : Nat) (qz : Quiz) :
    (callback label user_id qz).quiz.allow_multiple_answers = qz.allow_multiple_answers := by
  simp only [callback]
  split_ifs <;> rfl

theorem callback_quiz_name (label : String) (user_id : Nat) (qz : Quiz) :
    (callback label user_id qz).quiz.quiz_name = qz.quiz_name := by
  simp only [callback]
  split_ifs <;> rfl

theorem callback_index (label : String) (user_id : Nat) (qz : Quiz) :
    (callback label user_id qz).quiz.current_question_index = qz.current_question_index := by
  simp only [callback]
  split_ifs <;> rfl

theorem callback_followup (label : String) (user_id : Nat) (qz : Quiz) :
    (callback label user_id qz).followup = "You voted for " ++ label := by
  simp only [callback]

/-- Every callback invocation moves the clicked label's count by one, so the
answer_votes dict never comes back unchanged. -/
theorem callback_answer_votes_ne (label : String) (user_id : Nat) (qz : Quiz) :
    (callback label user_id qz).quiz.answer_votes ≠ qz.answer_votes := by
  have hsub : dgetD qz.answer_votes label 0 - 1 = dgetD qz.answer_votes label 0 + (-1) := by
    omega
  simp only [callback]
  split_ifs <;> simp only [] <;>
    first
      | exact hsub ▸ dset_shift_ne qz.answer_votes label (-1) (by decide)
      | exact dset_shift_ne qz.answer_votes label 1 (by decide)

/-- The callback keeps every key of answer_votes in place when the clicked
label is already a key (which reset guarantees for current options). -/
theorem callback_dkeys (label : String) (user_id : Nat) (qz : Quiz)
    (h : label ∈ dkeys qz.answer_votes) :
    dkeys (callback label user_id qz).quiz.answer_votes = dkeys qz.answer_votes := by
  have hs : (dget qz.answer_votes label).isSome := (mem_dkeys_iff_isSome _ _).mp h
  simp only [callback]
  split_ifs <;> simp only [] <;> exact dkeys_dset_of_mem _ _ _ hs

/-! Structural lemmas about send_question. -/

theorem get_current_question_congr (quiz_data : List (String × QuizData)) (q₁ q₂ : Quiz)
    (hn : q₁.quiz_name = q₂.quiz_name)
    (hi : q₁.current_question_index = q₂.current_question_index) :
    get_current_question quiz_data q₁ = get_current_question quiz_data q₂ := by
  simp [get_current_question, hn, hi]

/-- When send_question lands in the asked branch for q₂, it does so for any
quiz with the same name and index, and both get the same fresh ledger. -/
theorem send_question_answer_votes_congr (quiz_data : List (String × QuizData))
    (message_id : Nat) (q₁ q₂ : Quiz) (c : String)
    (hn : q₁.quiz_name = q₂.quiz_name)
    (hi : q₁.current_question_index = q₂.current_question_index)
    (h : (send_question quiz_data message_id q₂).2 = SendMsg.asked c) :
    (send_question quiz_data message_id q₁).1.answer_votes
      = (send_question quiz_data message_id q₂).1.answer_votes := by
  have hq : get_current_question quiz_data
      { q₁ with current_question_index := q₁.current_question_index + 1 }
      = get_current_question quiz_data
      { q₂ with current_question_index := q₂.current_question_index + 1 } :=
    get_current_question_congr _ _ _ (by simp [hn]) (by simp [hi])
  simp only [send_question, hn, hi] at *
  by_cases h1 : q₂.current_question_index + 1
      ≥ (((dgetD quiz_data q₂.quiz_name ⟨[]⟩).questions.length : Int)) <;>
    simp only [h1, if_pos, if_neg, if_true, if_false] at *
  · simp at h
  · rw [hq] at *
    cases hg : get_current_question quiz_data
        { q₂ with current_question_index := q₂.current_question_index + 1 } with
    | none => simp [hg] at h
    | some question_data =>
      simp only [hg] at h ⊢
      by_cases h2 : question_data.options.length < 2 <;> simp [h2] at h ⊢

/-! Concrete scenarios used by the claim theorems, each reached by running
the embedded commands from an empty registry. -/

def sdemo_qd : List (String × QuizData) :=
  [("fruit", ⟨[⟨"Q1", ["A", "B"]⟩, ⟨"Q2", ["A", "B"]⟩]⟩)]

/-- The quiz starter: a member with every permission. -/
def starter : Author := ⟨3, true, fun _ => true⟩

/-- A member with no permissions at all, and not the bot owner. -/
def npc : Author := ⟨5, true, fun _ => false⟩

def fallbackQuiz : Quiz := mkQuiz "" 0 false

/-- Single-choice session on the fruit quiz, directly after start. -/
def sdemo_q1 : Quiz :=
  (dget (start_quiz sdemo_qd [] 1 starter "fruit" false 10).1 1).getD fallbackQuiz

/-- After voter 7 clicks A on the first question. -/
def sdemo_c1 : Quiz := (callback "A" 7 sdemo_q1).quiz

/-- After voter 7 then clicks B, switching their single-choice vote. -/
def sdemo_c2 : Quiz := (callback "B" 7 sdemo_c1).quiz

def mdemo_qd : List (String × QuizData) :=
  [("colors", ⟨[⟨"Q1", ["Yes", "No"]⟩, ⟨"Q2", ["Yes", "No"]⟩]⟩)]

/-- Multi-choice session on the colors quiz, directly after start. -/
def mdemo_q1 : Quiz :=
  (dget (start_quiz mdemo_qd [] 1 starter "colors" true 10).1 1).getD fallbackQuiz

/-- After voter 7 toggles Yes on the first question. -/
def mdemo_c1 : Quiz := (callback "Yes" 7 mdemo_q1).quiz

/-- Advancing to the second question with that vote recorded.  The registry
entry holds the same object the vote mutated. -/
def mdemo_adv : List (Nat × Quiz) × NextReply :=
  next_question mdemo_qd [(1, mdemo_c1)] 1 starter DisableOutcome.ok 12

/-- The session state on the second question. -/
def mdemo_q2 : Quiz := (dget mdemo_adv.1 1).getD fallbackQuiz

/-- The number of voters whose recorded selection set is non-empty. -/
def voters_with_selection (qz : Quiz) : Nat :=
  (qz.user_votes.filter (fun p => decide (p.2 ≠ ∅))).length

/-- C1: the claim states that switching a single-choice vote decrements the
previously selected option's count before recording the new one.  In the
code the single-answer branch pops the voter's previous entry from
user_votes but never decrements answer_votes: after voter 7 votes A and
then votes B, A still holds count 1 while B is incremented, so the prior
count is not decremented. -/
theorem C1_switch_does_not_decrement :
    sdemo_q1.answer_votes = [("A", 0), ("B", 0)] ∧
    sdemo_c1.answer_votes = [("A", 1), ("B", 0)] ∧
    sdemo_c2.answer_votes = [("A", 1), ("B", 1)] ∧
    sdemo_c2.user_votes = [(7, ({"B"} : Finset String))] := by
  decide

/-- C2: the claim states that in single-choice mode the sum of the counts
always equals the number of voters with a non-empty selection and stays
non-negative.  After the two recordVote calls of voter 7 (A then B) from a
freshly reset question, the counts sum to 2 while exactly one voter has a
non-empty selection. -/
theorem C2_sum_exceeds_voters :
    sumValues sdemo_c2.answer_votes = 2 ∧
    voters_with_selection sdemo_c2 = 1 := by
  decide

/-- C4: the claim states that a non-terminal advance resets voteCounts for
the new question's options, resets voterChoices to empty, and installs a
fresh control set and a zero vote-counter display.  The code resets
answer_votes, the counter message and the view, but leaves user_votes
holding the previous question's selections. -/
theorem C4_user_votes_survive_advance :
    mdemo_q2.answer_votes = [("Yes", 0), ("No", 0)] ∧
    mdemo_q2.current_question_votes = 0 ∧
    mdemo_q2.votes_message = some 0 ∧
    mdemo_q2.current_view = some (["Yes", "No"], false) ∧
    mdemo_q2.user_votes = [(7, ({"Yes"} : Finset String))] := by
  decide

/-- C3: the claim states that voteCounts entries are never negative in any
reachable state.  Because user_votes survives the advance (see the C4
theorem), voter 7's stale Yes selection makes the multi-choice branch treat
the fresh click on Yes as a retraction and drive its count to -1, which the
live votes display then shows. -/
theorem C3_negative_count_reachable :
    dget (callback "Yes" 7 mdemo_q2).quiz.answer_votes "Yes" = some (-1) ∧
    (callback "Yes" 7 mdemo_q2).quiz.votes_message = some (-1) := by
  decide

/-! Terminal-state scenario: a quiz with a single question, advanced past
its end. -/

def one_qd : List (String × QuizData) := [("one", ⟨[⟨"Q1", ["Yes", "No"]⟩]⟩)]

def one_q1 : Quiz :=
  (dget (start_quiz one_qd [] 1 starter "one" false 10).1 1).getD fallbackQuiz

/-- Advancing past the only question: the session is removed. -/
def one_adv : List (Nat × Quiz) × NextReply :=
  next_question one_qd [(1, one_q1)] 1 starter DisableOutcome.ok 11

/-- The session object the stale buttons still reference after termination:
the view was disabled best-effort and send_question stepped the index past
the end before deleting the registry entry.  The buttons hold a direct
reference to this object, not a registry lookup. -/
def one_stale : Quiz :=
  (send_question one_qd 11
    { one_q1 with current_view := one_q1.current_view.map (fun v => (v.1, true)) }).1

/-- C5: the claim states that after the terminal advance every subsequent
nextQuestion or vote interaction is treated as no active quiz, with no
session state mutated.  nextQuestion indeed reports noQuiz, but a click on
a stale still-enabled button runs the callback against the removed session
object: it acknowledges the vote and mutates the ledger instead of
reporting no active quiz. -/
theorem C5_stale_vote_not_rejected :
    one_adv.1 = [] ∧
    one_adv.2 = NextReply.advanced none
      (some (result_table [("Yes", 0), ("No", 0)])) SendMsg.quizEnded ∧
    next_question one_qd one_adv.1 1 starter DisableOutcome.ok 12
      = ([], NextReply.noQuiz) ∧
    (callback "Yes" 9 one_stale).followup = "You voted for Yes" ∧
    (callback "Yes" 9 one_stale).quiz ≠ one_stale ∧
    dget (callback "Yes" 9 one_stale).quiz.answer_votes "Yes" = some 1 := by
  decide

/-- C5 (amended): after the terminal advance the session is gone from the
registry and any nextQuestion on the channel reports no active quiz without
mutating anything; a vote interaction, however, never consults the registry
and is processed against whatever session object its button references,
acknowledging the voter and changing that object's counts. -/
theorem C5_terminal_registry_and_stale_controls :
    (∀ (quiz_data : List (String × QuizData)) (quizzes : List (Nat × Quiz))
        (channel_id : Nat) (author : Author) (disable : DisableOutcome)
        (message_id : Nat),
        dget quizzes channel_id = none →
        next_question quiz_data quizzes channel_id author disable message_id
          = (quizzes, NextReply.noQuiz)) ∧
    (∀ (qz : Quiz) (label : String) (user_id : Nat),
        (callback label user_id qz).followup = "You voted for " ++ label ∧
        (callback label user_id qz).quiz.answer_votes ≠ qz.answer_votes) := by
  constructor
  · intro quiz_data quizzes channel_id author disable message_id h
    simp [next_question, h]
  · intro qz label user_id
    exact ⟨callback_followup label user_id qz, callback_answer_votes_ne label user_id qz⟩

theorem C5_terminal_witness :
    dget ([] : List (Nat × Quiz)) 1 = none ∧
    next_question one_qd [] 1 starter DisableOutcome.ok 12 = ([], NextReply.noQuiz) ∧
    (callback "No" 9 one_stale).quiz.answer_votes ≠ one_stale.answer_votes :=
  ⟨rfl,
   C5_terminal_registry_and_stale_controls.1 one_qd [] 1 starter DisableOutcome.ok 12 rfl,
   (C5_terminal_registry_and_stale_controls.2 one_stale "No" 9).2⟩

/-- C6: the claim states that startQuiz and uploadQuiz fail with a
permission denial for an invoker who is neither administrator nor owner.
Neither handler checks any permission: the permissionless npc successfully
starts a quiz, mutating the registry, and successfully uploads, mutating
and persisting the catalog. -/
theorem C6_no_permission_gate :
    npc.perms "administrator" = false ∧ npc.id ≠ 999 ∧
    (start_quiz one_qd [] 1 npc "one" false 10).2
      = StartReply.started (SendMsg.asked "**Question 1: Q1**") ∧
    (start_quiz one_qd [] 1 npc "one" false 10).1 ≠ [] ∧
    (upload_quiz [] npc [⟨"quizzes.json", some [("x", ⟨[]⟩)]⟩]).saved = true ∧
    (upload_quiz [] npc [⟨"quizzes.json", some [("x", ⟨[]⟩)]⟩]).quiz_data
      = [("x", ⟨[]⟩)] := by
  decide

/-- C6 (amended): startQuiz consults the invoker only for the id recorded
as starter and uploadQuiz ignores the invoker entirely, so neither performs
a permission check; forceQuit does require manage-messages-or-owner, and
nextQuestion succeeds only for the session's starter. -/
theorem C6_permissions :
    (∀ (quiz_data : List (String × QuizData)) (quizzes : List (Nat × Quiz))
        (channel_id : Nat) (a b : Author) (quiz_name : String)
        (multiple_answers : Bool) (message_id : Nat), a.id = b.id →
        start_quiz quiz_data quizzes channel_id a quiz_name multiple_answers message_id
          = start_quiz quiz_data quizzes channel_id b quiz_name multiple_answers
              message_id) ∧
    (∀ (quiz_data : List (String × QuizData)) (a b : Author)
        (attachments : List Attachment),
        upload_quiz quiz_data a attachments = upload_quiz quiz_data b attachments) ∧
    (∀ (quizzes : List (Nat × Quiz)) (channel_id : Nat) (a : Author)
        (owner_id : Option Nat),
        has_permission a "manage_messages" = false → some a.id ≠ owner_id →
        force_quit quizzes channel_id a owner_id
          = (quizzes, ForceQuitReply.noPermission)) ∧
    (∀ (quiz_data : List (String × QuizData)) (quizzes : List (Nat × Quiz))
        (channel_id : Nat) (a : Author) (disable : DisableOutcome)
        (message_id : Nat) (qz : Quiz),
        dget quizzes channel_id = some qz → a.id ≠ qz.quiz_starter_id →
        next_question quiz_data quizzes channel_id a disable message_id
          = (quizzes, NextReply.notStarter)) := by
  refine ⟨?_, ?_, ?_, ?_⟩
  · intro qd quizzes ch a b qn m mid hab
    simp [start_quiz, hab]
  · intro qd a b atts
    rfl
  · intro quizzes ch a owner hp ho
    simp [force_quit, hp, ho]
  · intro qd quizzes ch a d mid qz hq hne
    simp [next_question, hq, hne]

/-- An invoker sharing npc's id but differing in membership and every
permission bit. -/
def npc2 : Author := ⟨5, false, fun _ => true⟩

theorem C6_permissions_witness :
    npc.id = npc2.id ∧
    has_permission npc "manage_messages" = false ∧
    some npc.id ≠ some 999 ∧
    start_quiz one_qd [] 1 npc "one" false 10
      = start_quiz one_qd [] 1 npc2 "one" false 10 ∧
    upload_quiz [] npc [] = upload_quiz [] npc2 [] ∧
    force_quit [] 1 npc (some 999) = ([], ForceQuitReply.noPermission) ∧
    next_question one_qd [(1, one_q1)] 1 npc DisableOutcome.ok 12
      = ([(1, one_q1)], NextReply.notStarter) :=
  ⟨rfl, rfl, by decide,
   C6_permissions.1 one_qd [] 1 npc npc2 "one" false 10 rfl,
   C6_permissions.2.1 [] npc npc2 [],
   C6_permissions.2.2.1 [] 1 npc (some 999) rfl (by decide),
   C6_permissions.2.2.2 one_qd [(1, one_q1)] 1 npc DisableOutcome.ok 12 one_q1 rfl
     (by decide)⟩

/-! The upload merge, claim C7. -/

/-- The last binding a payload gives for a name (later duplicate top-level
keys overwrite earlier ones, as in a Python dict built in document order). -/
def lookupLast (entries : List (String × QuizData)) (name : String) : Option QuizData :=
  entries.foldl (fun acc p => if p.1 = name then some p.2 else acc) none

theorem dget_foldl_dset (entries : List (String × QuizData))
    (d : List (String × QuizData)) (name : String) :
    dget (entries.foldl (fun acc p => dset acc p.1 p.2) d) name
      = entries.foldl (fun acc p => if p.1 = name then some p.2 else acc) (dget d name) := by
  induction entries generalizing d with
  | nil => rfl
  | cons p rest ih =>
    simp only [List.foldl_cons]
    rw [ih]
    by_cases h : p.1 = name
    · subst h
      rw [dget_dset_self]
      simp
    · rw [dget_dset_ne _ _ _ _ (fun he => h he.symm), if_neg h]

theorem lookupLast_shift (entries : List (String × QuizData)) (name : String)
    (a : Option QuizData) :
    entries.foldl (fun acc p => if p.1 = name then some p.2 else acc) a
      = match lookupLast entries name with
        | some v => some v
        | none => a := by
  induction entries generalizing a with
  | nil => rfl
  | cons p rest ih =>
    simp only [lookupLast, List.foldl_cons] at *
    by_cases h : p.1 = name
    · simp only [if_pos h]
      rw [ih]
      cases hr : rest.foldl (fun acc p => if p.1 = name then some p.2 else acc) none <;>
        simp
    · simp only [if_neg h]
      exact ih a

/-- C7: a payload that fails to parse leaves the catalog untouched and
unsaved with an error reply; a payload that parses is applied entirely, the
merged catalog maps each name to the payload's last binding for it if there
is one and to its old value otherwise (so entries absent from the payload
are unchanged), and the catalog is then persisted. -/
theorem C7_upload_merge :
    (∀ (quiz_data : List (String × QuizData)) (a : Author) (fn : String),
        endswith fn ".json" = true →
        upload_quiz quiz_data a [⟨fn, none⟩]
          = ⟨quiz_data, false, UploadReply.invalidJson⟩) ∧
    (∀ (quiz_data : List (String × QuizData)) (a : Author) (fn : String)
        (entries : List (String × QuizData)), endswith fn ".json" = true →
        (upload_quiz quiz_data a [⟨fn, some entries⟩]).saved = true ∧
        (upload_quiz quiz_data a [⟨fn, some entries⟩]).reply = UploadReply.success ∧
        (∀ name, dget (upload_quiz quiz_data a [⟨fn, some entries⟩]).quiz_data name
          = match lookupLast entries name with
            | some v => some v
            | none => dget quiz_data name) ∧
        (∀ name, lookupLast entries name = none →
          dget (upload_quiz quiz_data a [⟨fn, some entries⟩]).quiz_data name
            = dget quiz_data name)) := by
  constructor
  · intro quiz_data a fn hfn
    simp [upload_quiz, hfn]
  · intro quiz_data a fn entries hfn
    refine ⟨by simp [upload_quiz, hfn], by simp [upload_quiz, hfn], ?_, ?_⟩
    · intro name
      simp only [upload_quiz, hfn, not_true, if_false]
      rw [dget_foldl_dset, lookupLast_shift]
    · intro name hnone
      simp only [upload_quiz, hfn, not_true, if_false]
      rw [dget_foldl_dset, lookupLast_shift, hnone]

theorem C7_upload_witness :
    endswith "quizzes.json" ".json" = true ∧
    upload_quiz [("a", ⟨[⟨"q", ["x", "y"]⟩]⟩)] npc [⟨"quizzes.json", none⟩]
      = ⟨[("a", ⟨[⟨"q", ["x", "y"]⟩]⟩)], false, UploadReply.invalidJson⟩ ∧
    (upload_quiz [("a", ⟨[⟨"q", ["x", "y"]⟩]⟩)] npc
        [⟨"quizzes.json", some [("a", ⟨[]⟩), ("b", ⟨[]⟩)]⟩]).saved = true ∧
    dget (upload_quiz [("a", ⟨[⟨"q", ["x", "y"]⟩]⟩)] npc
        [⟨"quizzes.json", some [("a", ⟨[]⟩), ("b", ⟨[]⟩)]⟩]).quiz_data "a"
      = some ⟨[]⟩ ∧
    dget (upload_quiz [("a", ⟨[⟨"q", ["x", "y"]⟩]⟩)] npc
        [⟨"quizzes.json", some [("a", ⟨[]⟩), ("b", ⟨[]⟩)]⟩]).quiz_data "c"
      = dget [("a", ⟨[⟨"q", ["x", "y"]⟩]⟩)] "c" :=
  ⟨by decide,
   C7_upload_merge.1 [("a", ⟨[⟨"q", ["x", "y"]⟩]⟩)] npc "quizzes.json" (by decide),
   (C7_upload_merge.2 [("a", ⟨[⟨"q", ["x", "y"]⟩]⟩)] npc "quizzes.json"
      [("a", ⟨[]⟩), ("b", ⟨[]⟩)] (by decide)).1,
   by
     have := (C7_upload_merge.2 [("a", ⟨[⟨"q", ["x", "y"]⟩]⟩)] npc "quizzes.json"
       [("a", ⟨[]⟩), ("b", ⟨[]⟩)] (by decide)).2.2.1 "a"
     simpa using this,
   (C7_upload_merge.2 [("a", ⟨[⟨"q", ["x", "y"]⟩]⟩)] npc "quizzes.json"
      [("a", ⟨[]⟩), ("b", ⟨[]⟩)] (by decide)).2.2.2 "c" (by decide)⟩

/-! The results table, claim C8. -/

/-- The integer rounding used by the table agrees with rounding the exact
rational percentage count/total*100 to the nearest hundredth, halves
upward. -/
theorem pct_hundredths_spec (c t : Int) (ht : 0 < t) :
    pct_hundredths c t = ⌊percentage_of c t * 100 + 1 / 2⌋ := by
  have htq : (t : ℚ) ≠ 0 := by
    exact_mod_cast ht.ne'
  have hd : (((2 * t).toNat : ℕ) : ℤ) = 2 * t := Int.toNat_of_nonneg (by omega)
  have hdq : (((2 * t).toNat : ℕ) : ℚ) = ((2 * t : ℤ) : ℚ) := by
    exact_mod_cast hd
  have h1 : percentage_of c t * 100 + 1 / 2
      = ((20000 * c + t : ℤ) : ℚ) / (((2 * t).toNat : ℕ) : ℚ) := by
    rw [percentage_of, if_pos ht, hdq]
    push_cast
    field_simp
    ring
  rw [h1, Rat.floor_intCast_div_natCast]
  simp only [pct_hundredths, if_pos ht]
  rw [hd]

/-- Applying a sequence of button clicks, each a pair of label and voter. -/
def apply_votes (votes : List (String × Nat)) (qz : Quiz) : Quiz :=
  votes.foldl (fun q p => (callback p.1 p.2 q).quiz) qz

/-- A vote sequence whose labels are all current keys (as every label of
the question is after a reset) leaves the key order of answer_votes, and
hence the row order of the results table, untouched. -/
theorem apply_votes_dkeys (votes : List (String × Nat)) (qz : Quiz)
    (h : ∀ p ∈ votes, p.1 ∈ dkeys qz.answer_votes) :
    dkeys (apply_votes votes qz).answer_votes = dkeys qz.answer_votes := by
  induction votes generalizing qz with
  | nil => rfl
  | cons p rest ih =>
    have hp := h p (List.mem_cons_self _ _)
    have hkeys := callback_dkeys p.1 p.2 qz hp
    have hsub : ∀ q ∈ rest, q.1 ∈ dkeys (callback p.1 p.2 qz).quiz.answer_votes := by
      intro q hq
      rw [hkeys]
      exact h q (List.mem_cons_of_mem _ hq)
    simp only [apply_votes, List.foldl_cons] at ih ⊢
    rw [ih ((callback p.1 p.2 qz).quiz) hsub, hkeys]

def c8_qd : List (String × QuizData) := [("letters", ⟨[⟨"Q1", ["A", "BB", "CCC"]⟩]⟩)]

/-- Single-choice session on the letters quiz, directly after start. -/
def c8_q1 : Quiz :=
  (dget (start_quiz c8_qd [] 1 starter "letters" false 10).1 1).getD fallbackQuiz

/-- C8: percentages are count/total*100 rendered to two decimals (0.00 for
a zero total) and rows follow the option order of the question definition.
Votes only update keys in place, so the key order laid down by the reset is
the definition order; the rounding the table uses is the exact rational
rounding; a zero total renders as 0.00 whatever the count; and the claim's
concrete instance (options [A, BB, CCC], counts 1, 2, 0 reached by three
voters) renders 33.33, 66.67 and 0.00 in definition order even though BB
has the most votes. -/
theorem C8_results_table :
    (∀ (votes : List (String × Nat)) (qz : Quiz),
        (∀ p ∈ votes, p.1 ∈ dkeys qz.answer_votes) →
        dkeys (apply_votes votes qz).answer_votes = dkeys qz.answer_votes) ∧
    (∀ c t : Int, 0 < t → pct_hundredths c t = ⌊percentage_of c t * 100 + 1 / 2⌋) ∧
    (∀ c : Int, format2h (pct_hundredths c 0) = "0.00") ∧
    (apply_votes [("A", 1), ("BB", 2), ("BB", 3)] c8_q1).answer_votes
      = [("A", 1), ("BB", 2), ("CCC", 0)] ∧
    result_table [("A", 1), ("BB", 2), ("CCC", 0)]
      = "Results\nOption | Count | %\n----------------------\nA      | 1     | 33.33%\nBB     | 2     | 66.67%\nCCC    | 0     | 0.00%\n" := by
  refine ⟨apply_votes_dkeys, pct_hundredths_spec, ?_, by decide, by decide⟩
  intro c
  have h0 : pct_hundredths c 0 = 0 := by simp [pct_hundredths]
  rw [h0]
  decide

theorem C8_results_witness :
    dkeys (apply_votes [("A", 1)] c8_q1).answer_votes = dkeys c8_q1.answer_votes ∧
    (0 : Int) < 3 ∧
    pct_hundredths 1 3 = ⌊percentage_of 1 3 * 100 + 1 / 2⌋ :=
  ⟨C8_results_table.1 [("A", 1)] c8_q1 (by decide), by decide,
   C8_results_table.2.1 1 3 (by decide)⟩

/-! The multi-choice toggle, claim C9. -/

theorem dgetD_dset_self {κ α : Type} [DecidableEq κ] (d : List (κ × α)) (k : κ) (v v₀ : α) :
    dgetD (dset d k v) k v₀ = v := by
  simp [dgetD, dget_dset_self]

theorem dgetD_dset_ne {κ α : Type} [DecidableEq κ] (d : List (κ × α)) (k k' : κ) (v v₀ : α)
    (h : k' ≠ k) : dgetD (dset d k v) k' v₀ = dgetD d k' v₀ := by
  simp [dgetD, dget_dset_ne _ _ _ _ h]

/-- Evaluation of the multi-choice callback for a voter with no entry: the
on-demand empty set is installed and the label immediately added to it. -/
theorem callback_multi_none (label : String) (user_id : Nat) (qz : Quiz)
    (hm : qz.allow_multiple_answers = true)
    (hu : dget qz.user_votes user_id = none) :
    (callback label user_id qz).quiz =
      { qz with
        user_votes := dset qz.user_votes user_id {label}
        answer_votes := dset qz.answer_votes label (dgetD qz.answer_votes label 0 + 1)
        current_question_votes :=
          sumValues (dset qz.answer_votes label (dgetD qz.answer_votes label 0 + 1))
        votes_message := if qz.votes_message.isSome then
            some (sumValues (dset qz.answer_votes label (dgetD qz.answer_votes label 0 + 1)))
          else qz.votes_message } := by
  cases hvm : qz.votes_message <;>
    simp [callback, hm, hu, hvm, dgetD_dset_self, dset_dset]

/-- Evaluation of the multi-choice callback when the voter's recorded set
contains the label: the click retracts it. -/
theorem callback_multi_mem (label : String) (user_id : Nat) (qz : Quiz) (S : Finset String)
    (hm : qz.allow_multiple_answers = true)
    (hu : dget qz.user_votes user_id = some S) (hs : label ∈ S) :
    (callback label user_id qz).quiz =
      { qz with
        user_votes := dset qz.user_votes user_id (S.erase label)
        answer_votes := dset qz.answer_votes label (dgetD qz.answer_votes label 0 - 1)
        current_question_votes :=
          sumValues (dset qz.answer_votes label (dgetD qz.answer_votes label 0 - 1))
        votes_message := if qz.votes_message.isSome then
            some (sumValues (dset qz.answer_votes label (dgetD qz.answer_votes label 0 - 1)))
          else qz.votes_message } := by
  have hsel : dgetD qz.user_votes user_id ∅ = S := by simp [dgetD, hu]
  cases hvm : qz.votes_message <;>
    simp [callback, hm, hu, hvm, hsel, hs, dset_dset]

/-- Evaluation of the multi-choice callback when the voter has an entry not
containing the label: the click adds it. -/
theorem callback_multi_not_mem (label : String) (user_id : Nat) (qz : Quiz)
    (S : Finset String) (hm : qz.allow_multiple_answers = true)
    (hu : dget qz.user_votes user_id = some S) (hs : label ∉ S) :
    (callback label user_id qz).quiz =
      { qz with
        user_votes := dset qz.user_votes user_id (insert label S)
        answer_votes := dset qz.answer_votes label (dgetD qz.answer_votes label 0 + 1)
        current_question_votes :=
          sumValues (dset qz.answer_votes label (dgetD qz.answer_votes label 0 + 1))
        votes_message := if qz.votes_message.isSome then
            some (sumValues (dset qz.answer_votes label (dgetD qz.answer_votes label 0 + 1)))
          else qz.votes_message } := by
  have hsel : dgetD qz.user_votes user_id ∅ = S := by simp [dgetD, hu]
  cases hvm : qz.votes_message <;>
    simp [callback, hm, hu, hvm, hsel, hs, dset_dset]

/-- C9: the claim states that a same-voter same-label double toggle in
multi-choice mode restores voteCounts, voterChoices and totalVotes.  When
the voter had no entry, the pair of calls leaves an explicit empty
selection set behind: the user_votes dict gains the key, so the ledger is
not restored to its prior value. -/
theorem C9_pair_leaves_empty_entry :
    (callback "Yes" 7 (callback "Yes" 7 mdemo_q1).quiz).quiz.user_votes
      = [(7, (∅ : Finset String))] ∧
    mdemo_q1.user_votes = [] ∧
    (callback "Yes" 7 (callback "Yes" 7 mdemo_q1).quiz).quiz.user_votes
      ≠ mdemo_q1.user_votes ∧
    (callback "Yes" 7 (callback "Yes" 7 mdemo_q1).quiz).quiz.answer_votes
      = mdemo_q1.answer_votes ∧
    (callback "Yes" 7 (callback "Yes" 7 mdemo_q1).quiz).quiz.current_question_votes
      = mdemo_q1.current_question_votes := by
  decide

/-- C9 (amended): in multi-choice mode, toggling the same label twice for
the same voter restores voteCounts exactly, restores totalVotes exactly
(given the maintained invariant that it equals the sum of the counts), and
restores every voter's effective selection set; the voterChoices dict
itself is restored exactly when the voter already had an entry, and
otherwise differs only by an explicit empty entry for that voter. -/
theorem C9_double_toggle (qz : Quiz) (label : String) (user_id : Nat)
    (hm : qz.allow_multiple_answers = true)
    (hl : (dget qz.answer_votes label).isSome)
    (ht : qz.current_question_votes = sumValues qz.answer_votes) :
    ((callback label user_id (callback label user_id qz).quiz).quiz.answer_votes
        = qz.answer_votes) ∧
    ((callback label user_id (callback label user_id qz).quiz).quiz.current_question_votes
        = qz.current_question_votes) ∧
    (∀ u, dgetD (callback label user_id (callback label user_id qz).quiz).quiz.user_votes u ∅
        = dgetD qz.user_votes u ∅) ∧
    ((callback label user_id (callback label user_id qz).quiz).quiz.user_votes
        = qz.user_votes
      ∨ (callback label user_id (callback label user_id qz).quiz).quiz.user_votes
        = dset qz.user_votes user_id ∅) := by
  obtain ⟨v, hv⟩ := Option.isSome_iff_exists.mp hl
  have hva : dgetD qz.answer_votes label 0 = v := by simp [dgetD, hv]
  have hm2 : (callback label user_id qz).quiz.allow_multiple_answers = true := by
    rw [callback_allow_multiple]
    exact hm
  cases hu : dget qz.user_votes user_id with
  | none =>
    have e1 := callback_multi_none label user_id qz hm hu
    have huv1 : (callback label user_id qz).quiz.user_votes
        = dset qz.user_votes user_id {label} := by rw [e1]
    have hav1 : (callback label user_id qz).quiz.answer_votes
        = dset qz.answer_votes label (dgetD qz.answer_votes label 0 + 1) := by rw [e1]
    have hu2 : dget (callback label user_id qz).quiz.user_votes user_id
        = some {label} := by rw [huv1]; exact dget_dset_self _ _ _
    have e2 := callback_multi_mem label user_id ((callback label user_id qz).quiz)
      {label} hm2 hu2 (Finset.mem_singleton_self label)
    have hexpr : dset (callback label user_id qz).quiz.answer_votes label
        (dgetD (callback label user_id qz).quiz.answer_votes label 0 - 1)
        = qz.answer_votes := by
      rw [hav1, dgetD_dset_self, dset_dset, hva, add_sub_cancel_right,
        dset_eq_of_dget _ _ _ hv]
    have hexpr_uv : dset (callback label user_id qz).quiz.user_votes user_id
        (({label} : Finset String).erase label) = dset qz.user_votes user_id ∅ := by
      rw [huv1, dset_dset, Finset.erase_singleton]
    refine ⟨by simp only [e2]; exact hexpr,
      by simp only [e2]; rw [hexpr]; exact ht.symm, ?_,
      Or.inr (by simp only [e2]; exact hexpr_uv)⟩
    intro u
    simp only [e2]
    rw [hexpr_uv]
    by_cases huu : u = user_id
    · subst huu
      rw [dgetD_dset_self]
      simp [dgetD, hu]
    · rw [dgetD_dset_ne _ _ _ _ _ huu]
  | some S =>
    by_cases hs : label ∈ S
    · have e1 := callback_multi_mem label user_id qz S hm hu hs
      have huv1 : (callback label user_id qz).quiz.user_votes
          = dset qz.user_votes user_id (S.erase label) := by rw [e1]
      have hav1 : (callback label user_id qz).quiz.answer_votes
          = dset qz.answer_votes label (dgetD qz.answer_votes label 0 - 1) := by rw [e1]
      have hu2 : dget (callback label user_id qz).quiz.user_votes user_id
          = some (S.erase label) := by rw [huv1]; exact dget_dset_self _ _ _
      have e2 := callback_multi_not_mem label user_id ((callback label user_id qz).quiz)
        (S.erase label) hm2 hu2 (Finset.not_mem_erase label S)
      have hexpr : dset (callback label user_id qz).quiz.answer_votes label
          (dgetD (callback label user_id qz).quiz.answer_votes label 0 + 1)
          = qz.answer_votes := by
        rw [hav1, dgetD_dset_self, dset_dset, hva, sub_add_cancel,
          dset_eq_of_dget _ _ _ hv]
      have hexpr_uv : dset (callback label user_id qz).quiz.user_votes user_id
          (insert label (S.erase label)) = qz.user_votes := by
        rw [huv1, dset_dset, Finset.insert_erase hs, dset_eq_of_dget _ _ _ hu]
      refine ⟨by simp only [e2]; exact hexpr,
        by simp only [e2]; rw [hexpr]; exact ht.symm, ?_,
        Or.inl (by simp only [e2]; exact hexpr_uv)⟩
      intro u
      simp only [e2]
      rw [hexpr_uv]
    · have e1 := callback_multi_not_mem label user_id qz S hm hu hs
      have huv1 : (callback label user_id qz).quiz.user_votes
          = dset qz.user_votes user_id (insert label S) := by rw [e1]
      have hav1 : (callback label user_id qz).quiz.answer_votes
          = dset qz.answer_votes label (dgetD qz.answer_votes label 0 + 1) := by rw [e1]
      have hu2 : dget (callback label user_id qz).quiz.user_votes user_id
          = some (insert label S) := by rw [huv1]; exact dget_dset_self _ _ _
      have e2 := callback_multi_mem label user_id ((callback label user_id qz).quiz)
        (insert label S) hm2 hu2 (Finset.mem_insert_self label S)
      have hexpr : dset (callback label user_id qz).quiz.answer_votes label
          (dgetD (callback label user_id qz).quiz.answer_votes label 0 - 1)
          = qz.answer_votes := by
        rw [hav1, dgetD_dset_self, dset_dset, hva, add_sub_cancel_right,
          dset_eq_of_dget _ _ _ hv]
      have hexpr_uv : dset (callback label user_id qz).quiz.user_votes user_id
          ((insert label S).erase label) = qz.user_votes := by
        rw [huv1, dset_dset, Finset.erase_insert hs, dset_eq_of_dget _ _ _ hu]
      refine ⟨by simp only [e2]; exact hexpr,
        by simp only [e2]; rw [hexpr]; exact ht.symm, ?_,
        Or.inl (by simp only [e2]; exact hexpr_uv)⟩
      intro u
      simp only [e2]
      rw [hexpr_uv]

theorem C9_double_toggle_witness :
    mdemo_c1.allow_multiple_answers = true ∧
    (dget mdemo_c1.answer_votes "Yes").isSome = true ∧
    mdemo_c1.current_question_votes = sumValues mdemo_c1.answer_votes ∧
    (callback "Yes" 7 (callback "Yes" 7 mdemo_c1).quiz).quiz.answer_votes
      = mdemo_c1.answer_votes :=
  ⟨by decide, by decide, by decide,
   (C9_double_toggle mdemo_c1 "Yes" 7 (by decide) (by decide) (by decide)).1⟩

/-! Cooperative interleaving of handler blocks, claim C10. -/

/-- The atomic blocks that touch session state, one per stretch of handler
code between two awaits: tally is the results computation in next_question
(separated from what follows by the await that sends the table), reset is
the ledger reset inside send_question, and vote is the mutation block of
the button callback (its leading response deferral and trailing message
edits suspend around it).  The cooperative scheduler may switch handlers at
any await, so admissible traces are the interleavings of the handlers'
block lists. -/
inductive Act where
  | tally
  | reset
  | vote (label : String) (user_id : Nat)
deriving DecidableEq

/-- The session state shared by the handlers, plus the transcript of result
tables sent so far. -/
structure CState where
  quiz : Quiz
  emitted : List String
deriving DecidableEq

def stepAct (quiz_data : List (String × QuizData)) (message_id : Nat) :
    Act → CState → CState
  | Act.tally, s => { s with emitted := s.emitted ++ [result_table s.quiz.answer_votes] }
  | Act.reset, s => { s with quiz := (send_question quiz_data message_id s.quiz).1 }
  | Act.vote label user_id, s => { s with quiz := (callback label user_id s.quiz).quiz }

def runActs (quiz_data : List (String × QuizData)) (message_id : Nat)
    (acts : List Act) (s : CState) : CState :=
  acts.foldl (fun s a => stepAct quiz_data message_id a s) s

/-- The traces a cooperative scheduler admits for two concurrent handlers
with no lock: any order preserving each handler's own block order. -/
inductive Interleaved {α : Type} : List α → List α → List α → Prop where
  | nil : Interleaved [] [] []
  | left {x : α} {xs ys zs : List α} :
      Interleaved xs ys zs → Interleaved (x :: xs) ys (x :: zs)
  | right {y : α} {xs ys zs : List α} :
      Interleaved xs ys zs → Interleaved xs (y :: ys) (y :: zs)

/-- C10: the claim states that every mutation group runs inside a
per-session critical section, so no vote can interleave between the
advance's results tabulation and its ledger reset.  The code takes no lock:
the trace tally, vote, reset is an admissible interleaving of the advance
blocks with a vote block, and on it the interleaved vote (which did
increment its count) is wiped by the reset, leaving counts and emitted
tables identical to a run in which it never happened. -/
theorem C10_vote_lost_between_tally_and_reset :
    Interleaved [Act.tally, Act.reset] [Act.vote "B" 8]
      [Act.tally, Act.vote "B" 8, Act.reset] ∧
    dget (callback "B" 8 sdemo_c1).quiz.answer_votes "B" = some 1 ∧
    (runActs sdemo_qd 13 [Act.tally, Act.vote "B" 8, Act.reset]
        ⟨sdemo_c1, []⟩).quiz.answer_votes = [("A", 0), ("B", 0)] ∧
    (runActs sdemo_qd 13 [Act.tally, Act.vote "B" 8, Act.reset]
        ⟨sdemo_c1, []⟩).quiz.answer_votes
      = (runActs sdemo_qd 13 [Act.tally, Act.reset] ⟨sdemo_c1, []⟩).quiz.answer_votes ∧
    (runActs sdemo_qd 13 [Act.tally, Act.vote "B" 8, Act.reset] ⟨sdemo_c1, []⟩).emitted
      = (runActs sdemo_qd 13 [Act.tally, Act.reset] ⟨sdemo_c1, []⟩).emitted :=
  ⟨Interleaved.left (Interleaved.right (Interleaved.left Interleaved.nil)),
   by decide, by decide, by decide, by decide⟩

/-- C10 (amended): there is no per-session critical section; the trace in
which a vote block runs between the advance's tabulation and its ledger
reset is admissible, and whenever the advance lands on a next question the
interleaved vote leaves no trace in the counts or in the emitted tables. -/
theorem C10_no_critical_section (quiz_data : List (String × QuizData))
    (message_id : Nat) (s : CState) (label : String) (user_id : Nat) (c : String)
    (h : (send_question quiz_data message_id s.quiz).2 = SendMsg.asked c) :
    Interleaved [Act.tally, Act.reset] [Act.vote label user_id]
      [Act.tally, Act.vote label user_id, Act.reset] ∧
    (runActs quiz_data message_id [Act.tally, Act.vote label user_id, Act.reset]
        s).quiz.answer_votes
      = (runActs quiz_data message_id [Act.tally, Act.reset] s).quiz.answer_votes ∧
    (runActs quiz_data message_id [Act.tally, Act.vote label user_id, Act.reset]
        s).emitted
      = (runActs quiz_data message_id [Act.tally, Act.reset] s).emitted := by
  refine ⟨Interleaved.left (Interleaved.right (Interleaved.left Interleaved.nil)), ?_, ?_⟩
  · simp only [runActs, List.foldl_cons, List.foldl_nil, stepAct]
    exact send_question_answer_votes_congr quiz_data message_id _ _ c
      (callback_quiz_name label user_id s.quiz) (callback_index label user_id s.quiz) h
  · simp only [runActs, List.foldl_cons, List.foldl_nil, stepAct]

theorem C10_no_critical_section_witness :
    (send_question sdemo_qd 13 sdemo_c1).2 = SendMsg.asked "**Question 2: Q2**" ∧
    (runActs sdemo_qd 13 [Act.tally, Act.vote "A" 9, Act.reset]
        ⟨sdemo_c1, []⟩).quiz.answer_votes
      = (runActs sdemo_qd 13 [Act.tally, Act.reset] ⟨sdemo_c1, []⟩).quiz.answer_votes :=
  ⟨by decide,
   (C10_no_critical_section sdemo_qd 13 ⟨sdemo_c1, []⟩ "A" 9 "**Question 2: Q2**"
      (by decide)).2.1⟩

end QuizBot
